import Mathlib

/-!
Shallow embedding of the data pipeline shared by the two dashboard scripts
(my_dashboard1.py, called variant 1 below, and the unnamed second script,
called variant 2).  A Sales table is a list of rows; nullable text cells are
Option String; currency amounts are integers (every amount of the claims is integral; sums and comparisons do not depend on sub-unit precision).  Python string operations
(str.strip, str.lower, str.title, str(x) on a missing value) are modelled
over the character list of the string.  The pandas operations groupby
(sort=True, null keys dropped), sort_values(ascending=False) (a reversal of
a stable ascending sort, matching the argsort-then-reverse data path),
nunique (distinct non-null values) and resample by month start are modelled
by explicit list functions below.
-/

namespace Dashboard

/-- Whitespace characters recognised by the Python str.strip used on the
ASCII data of the spreadsheet. -/
def isPySpace (c : Char) : Bool :=
  (c == ' ') || (c == '\t') || (c == '\n') || (c == '\r')

/-- Python str.strip on a character list: drop whitespace from both ends. -/
def stripList (l : List Char) : List Char :=
  ((l.dropWhile isPySpace).reverse.dropWhile isPySpace).reverse

/-- Python str.strip. -/
def strip (s : String) : String := ⟨stripList s.data⟩

/-- Python str.lower (ASCII). -/
def lower (s : String) : String := ⟨s.data.map Char.toLower⟩

/-- Python str.title on a character list: an alphabetic character is
upper-cased when the previous character was not alphabetic and lower-cased
otherwise; other characters are unchanged.  The flag records whether the
previous character was alphabetic. -/
def titleList : Bool → List Char → List Char
  | _, [] => []
  | prev, c :: cs =>
    (if c.isAlpha then (if prev then c.toLower else c.toUpper) else c)
      :: titleList c.isAlpha cs

/-- Python str.title. -/
def title (s : String) : String := ⟨titleList false s.data⟩

/-- Python str(x) as applied by astype(str) to a nullable cell: a missing
value renders as the string nan. -/
def pyStr : Option String → String
  | none => "nan"
  | some s => s

/-- Python / pandas lexicographic string comparison by code points, on
character lists. -/
def listLe : List Char → List Char → Bool
  | [], _ => true
  | _ :: _, [] => false
  | a :: as, b :: bs => if a = b then listLe as bs else decide (a < b)

/-- Python string less-or-equal, used by the sorted group keys of a pandas
groupby. -/
def strLe (a b : String) : Bool := listLe a.data b.data

/-- An order date; pandas to_datetime with errors coerce yields a null for
unparseable cells, so rows carry Option Date. -/
structure Date where
  year : Nat
  month : Nat
  day : Nat
deriving DecidableEq

/-- One row of the Sales sheet after the Loader strips the column headers
and parses Order Date.  The regionClean field models the Region_clean
column that variant 2 adds to the sales table in place; the Loader leaves
it absent (none). -/
structure Row where
  orderId : String
  orderDate : Option Date
  itemTotal : ℤ
  quantity : ℤ
  region : Option String
  schoolType : Option String
  typ : Option String
  itemType : Option String
  schoolMatch : Option String
  trustMatch : Option String
  regionClean : Option String
deriving DecidableEq

/-- A base row used to build concrete tables. -/
def row0 : Row :=
  { orderId := "", orderDate := none, itemTotal := 0, quantity := 0,
    region := none, schoolType := none, typ := none, itemType := none,
    schoolMatch := none, trustMatch := none, regionClean := none }

/-- Education membership of variant 1 (my_dashboard1.py line 81):
the row is kept when School Match lower-cased differs from the sentinel.
A null cell propagates through str.lower as null, and null compared with
a string under the pandas inequality is True, so null rows are kept;
no trimming is applied. -/
def eduPred1 : Option String → Bool
  | none => true
  | some s => decide (lower s ≠ "no match")

/-- Education membership of variant 2 (second script line 85): the row is
kept when School Match is non-null and trims to a non-empty string. -/
def eduPred2 : Option String → Bool
  | none => false
  | some s => decide (strip s ≠ "")

/-- Modelled from the spec: the unified education-subset predicate of
section 4.3 (trimmed School Match non-empty and not case-insensitively
equal to the sentinel).  It is stated here only to be compared with the two
source predicates; neither script implements it. -/
def eduPredUnified : Option String → Bool
  | none => false
  | some s => decide (strip s ≠ "") && decide (lower (strip s) ≠ "no match")

/-- Education subset of variant 1. -/
def edu1 (df : List Row) : List Row := df.filter (fun r => eduPred1 r.schoolMatch)

/-- Education subset of variant 2. -/
def edu2 (df : List Row) : List Row := df.filter (fun r => eduPred2 r.schoolMatch)

/-- Sum of Item Total over a table (the total revenue KPI of both
variants). -/
def total_revenue (df : List Row) : ℤ := (df.map Row.itemTotal).sum

/-- Education revenue KPI of variant 1. -/
def edu_revenue1 (df : List Row) : ℤ := total_revenue (edu1 df)

/-- Education revenue KPI of variant 2. -/
def edu_revenue2 (df : List Row) : ℤ := total_revenue (edu2 df)

/-- Pandas nunique on a nullable column: the number of distinct non-null
values. -/
def nunique (l : List (Option String)) : Nat := (l.filterMap id).dedup.length

/-- Schools-reached KPI of variant 1. -/
def schools_reached1 (df : List Row) : Nat := nunique ((edu1 df).map Row.schoolMatch)

/-- Schools-reached KPI of variant 2. -/
def schools_reached2 (df : List Row) : Nat := nunique ((edu2 df).map Row.schoolMatch)

/-- Distinct non-null School Match keys of a table, as produced by a pandas
groupby on School Match (null keys are dropped). -/
def schoolKeys (df : List Row) : List String := (df.filterMap Row.schoolMatch).dedup

/-- Number of distinct Order ID values among the rows of a table whose
School Match equals the given key. -/
def ordersForSchool (k : String) (df : List Row) : Nat :=
  ((df.filter (fun r => decide (r.schoolMatch = some k))).map Row.orderId).dedup.length

/-- Number of schools in a table with more than one distinct Order ID. -/
def repeatSchools (df : List Row) : Nat :=
  ((schoolKeys df).filter (fun k => decide (1 < ordersForSchool k df))).length

/-- Repeat-order rate of variant 1 (my_dashboard1.py line 116): the
division is guarded, a zero schools-reached count yields 0. -/
def repeat_order_rate1 (df : List Row) : ℚ :=
  if schools_reached1 df ≠ 0 then
    ((repeatSchools (edu1 df) : ℚ) / (schools_reached1 df : ℚ)) * 100
  else 0

/-- Repeat-order rate of variant 2 (second script line 95): the division is
not guarded; when the schools-reached count is zero numpy evaluates 0 / 0
to a NaN, modelled here as none.  A well-defined value v is modelled as
some v. -/
def repeat_order_rate2 (df : List Row) : Option ℚ :=
  if schools_reached2 df = 0 then none
  else some (((repeatSchools (edu2 df) : ℚ) / (schools_reached2 df : ℚ)) * 100)

/-- Trust predicate of variant 1 (my_dashboard1.py lines 91 to 93): the
Trust Match cell is passed through astype(str), stripped, lower-cased and
compared with the trust marker; a null cell renders as the string nan and
fails the test. -/
def trustPred1 (tm : Option String) : Bool := decide (lower (strip (pyStr tm)) = "trust")

/-- Trust predicate of variant 2 (second script line 100): str.strip and
str.lower propagate a null, and null compared equal with a string is False,
so a null cell fails the test. -/
def trustPred2 : Option String → Bool
  | none => false
  | some s => decide (lower (strip s) = "trust")

/-- Trust-matched purchase count of variant 1, taken over all sales. -/
def trust_purchases_count (df : List Row) : Nat :=
  (df.filter (fun r => trustPred1 r.trustMatch)).length

/-- Trust-matched sales KPI of variant 2, taken over its education subset
only. -/
def total_trust_matched_sales (df : List Row) : Nat :=
  ((edu2 df).filter (fun r => trustPred2 r.trustMatch)).length

/-- Stable insertion of an element into a list under a boolean comparator:
the element is placed before the first entry it is less-or-equal to, hence
after every earlier entry of equal rank. -/
def insertLe {α : Type} (le : α → α → Bool) (a : α) : List α → List α
  | [] => [a]
  | b :: l => if le a b then a :: b :: l else b :: insertLe le a l

/-- Stable insertion sort under a boolean comparator.  It models the stable
ascending argsort that pandas computes before reversing for a descending
sort_values. -/
def sortLe {α : Type} (le : α → α → Bool) : List α → List α
  | [] => []
  | a :: l => insertLe le a (sortLe le l)

/-- Comparator on key-value pairs by the rational value, used to model
sort_values on an aggregated series. -/
def valLe {K : Type} (a b : K × ℤ) : Bool := decide (a.2 ≤ b.2)

/-- Pandas sort_values with ascending set to false on a series: a stable
ascending sort of the values followed by a reversal of the resulting
order. -/
def sortValsDesc {K : Type} (pairs : List (K × ℤ)) : List (K × ℤ) :=
  (sortLe valLe pairs).reverse

/-- Sum of the values attached to a given key. -/
def sumForKey {K : Type} [DecidableEq K] (k : K) (pairs : List (K × ℤ)) : ℤ :=
  ((pairs.filter (fun p => decide (p.1 = k))).map Prod.snd).sum

/-- Pandas groupby with sum aggregation: one entry per distinct key, keys
sorted ascending under the given comparator, each paired with the sum of
its values. -/
def groupSum {K : Type} [DecidableEq K] (kle : K → K → Bool)
    (pairs : List (K × ℤ)) : List (K × ℤ) :=
  (sortLe kle (pairs.map Prod.fst).dedup).map (fun k => (k, sumForKey k pairs))

/-- Distinct keys of a list in order of first appearance, used to state
tie-order properties about the cleaned table. -/
def firstSeen : List String → List String
  | [] => []
  | k :: ks => k :: (firstSeen ks).filter (fun x => decide (x ≠ k))

/-- School Match / Item Total pairs of a table, the input of the groupby
behind the top-schools ranking; rows with a null School Match carry a null
group key and are dropped by pandas. -/
def keyedBySchool (df : List Row) : List (String × ℤ) :=
  df.filterMap (fun r => r.schoolMatch.map (fun k => (k, r.itemTotal)))

/-- Top-10 schools by revenue of variant 1 (my_dashboard1.py line 185). -/
def top_schools1 (df : List Row) : List (String × ℤ) :=
  (sortValsDesc (groupSum strLe (keyedBySchool (edu1 df)))).take 10

/-- Top-10 schools by revenue of variant 2 (second script line 227). -/
def top_schools2 (df : List Row) : List (String × ℤ) :=
  (sortValsDesc (groupSum strLe (keyedBySchool (edu2 df)))).take 10

/-- Region-cleaning step of variant 1 (my_dashboard1.py line 167): the
Region field of each row of the education table is rewritten in place to
the trimmed, title-cased rendering of its stringified value. -/
def cleanRegionRow (r : Row) : Row :=
  { r with region := some (title (strip (pyStr r.region))) }

/-- In-place Region rewrite of variant 1 applied to a whole table. -/
def regionCleanStep (df : List Row) : List Row := df.map cleanRegionRow

/-- Region filter of variant 1 (my_dashboard1.py line 168): rows whose
rewritten Region is empty or reads nan after lower-casing are dropped. -/
def valid_regions (df : List Row) : List Row :=
  df.filter (fun r =>
    decide (pyStr r.region ≠ "") && decide (lower (pyStr r.region) ≠ "nan"))

/-- Regional revenue breakdown of variant 1 (my_dashboard1.py line 169):
computed over the education subset after the in-place Region rewrite, with
blank and nan-like Regions dropped. -/
def region_sales1 (df : List Row) : List (String × ℤ) :=
  sortValsDesc (groupSum strLe
    ((valid_regions (regionCleanStep (edu1 df))).map
      (fun r => (pyStr r.region, r.itemTotal))))

/-- Column-adding step of variant 2 (second script line 147): a Region_clean
column holding the whitespace-trimmed stringified Region is written onto
the sales table in place. -/
def addRegionCleanStep (df : List Row) : List Row :=
  df.map (fun r => { r with regionClean := some (strip (pyStr r.region)) })

/-- Regional revenue breakdown of variant 2 (second script line 150):
computed over all sales grouped by the Region_clean column, keeping blank
and nan-like entries as their own categories. -/
def region_sales_all (df : List Row) : List (String × ℤ) :=
  sortValsDesc (groupSum strLe
    ((addRegionCleanStep df).map (fun r => (pyStr r.regionClean, r.itemTotal))))

/-- Month-start bucket key of a date, one key per calendar month. -/
def monthKey (d : Date) : Nat := d.year * 12 + d.month

/-- Comparator for month keys. -/
def natLe (a b : Nat) : Bool := decide (a ≤ b)

/-- Monthly revenue series of a table, as produced by resample over Order
Date with month-start frequency followed by a sum: rows with a null Order
Date are dropped, the remaining rows are grouped by calendar month.  Months
with no rows, which resample renders as zero, are omitted; this does not
affect any sum or exclusion property. -/
def monthly_series (df : List Row) : List (Nat × ℤ) :=
  groupSum natLe
    (df.filterMap (fun r => r.orderDate.map (fun d => (monthKey d, r.itemTotal))))

/-- Sum of a monthly revenue series. -/
def seriesTotal (s : List (Nat × ℤ)) : ℤ := (s.map Prod.snd).sum

/-- One equality constraint of the Filter Engine: none stands for the All
choice, some v keeps the rows whose selected column equals v.  A null cell
compares unequal to every string, as in pandas. -/
def applyEq (get : Row → Option String) (c : Option String) (df : List Row) :
    List Row :=
  match c with
  | none => df
  | some v => df.filter (fun r => decide (get r = some v))

/-- Truth value of one constraint on one row. -/
def matchOpt (c : Option String) (v : Option String) : Bool :=
  match c with
  | none => true
  | some x => decide (v = some x)

/-- Conjunction of the four constraints of variant 2 on one row, written in
the order the filters are applied (Region innermost, Trust Match
outermost). -/
def conjPred (cr cs ct cm : Option String) (r : Row) : Bool :=
  matchOpt cm r.trustMatch && matchOpt ct r.typ &&
    matchOpt cs r.schoolType && matchOpt cr r.region

/-- Filter Engine of variant 2 (second script lines 386 to 428): Region,
School Type, Type and Trust Match constraints applied in sequence. -/
def filtered2 (cr cs ct cm : Option String) (df : List Row) : List Row :=
  applyEq Row.trustMatch cm
    (applyEq Row.typ ct (applyEq Row.schoolType cs (applyEq Row.region cr df)))

/-- Filter Engine of variant 1 (my_dashboard1.py lines 334 to 338): Region
and School Type constraints applied in sequence to its base table. -/
def filtered1 (cr cs : Option String) (df : List Row) : List Row :=
  applyEq Row.schoolType cs (applyEq Row.region cr df)

/-- Filtered revenue total shown in the sidebar. -/
def filtered_sales_total (df : List Row) : ℤ := (df.map Row.itemTotal).sum

/-- Filtered row count shown in the sidebar. -/
def filtered_sales_count (df : List Row) : Nat := df.length

/-! Concrete tables used by the counterexamples and witnesses. -/

/-- First row of the spec section 8 example table. -/
def exSpecRow1 : Row :=
  { row0 with schoolMatch := some ("Oak Primary"), itemTotal := 100, region := some (" london ") }

/-- Second row of the spec section 8 example table: blank School Match. -/
def exSpecRow2 : Row :=
  { row0 with schoolMatch := some (""), itemTotal := 50, region := some ("London") }

/-- Third row of the spec section 8 example table: sentinel School Match. -/
def exSpecRow3 : Row :=
  { row0 with schoolMatch := some ("no match"), itemTotal := 25, region := some ("Leeds") }

/-- Example table of spec section 8: three rows with School Match values
Oak Primary, blank, and the sentinel, Item Totals 100, 50, 25 and Regions
with case and whitespace variants. -/
def exSpec : List Row := [exSpecRow1, exSpecRow2, exSpecRow3]

/-- Two rows whose School Match values are kept by a source predicate but
rejected by the unified spec predicate. -/
def exRowA : Row := { row0 with schoolMatch := some (" no match "), itemTotal := 1 }

/-- Row with School Match equal to the sentinel up to case. -/
def exRowB : Row := { row0 with schoolMatch := some ("No Match"), itemTotal := 2 }

/-- Table holding the two rows above. -/
def exC1 : List Row := [exRowA, exRowB]

/-- Table with a single row whose School Match is null: both education
subsets have no non-null school, so the schools-reached count is zero. -/
def exC2 : List Row := [ { row0 with schoolMatch := none, itemTotal := 100 } ]

/-- Table whose Trust Match column is the spec section 8 example list. -/
def exC3 : List Row :=
  [ { row0 with trustMatch := some ("Trust") },
    { row0 with trustMatch := some (" trust ") },
    { row0 with trustMatch := some ("TRUST") },
    { row0 with trustMatch := some ("") },
    { row0 with trustMatch := some ("Not Trust") } ]

/-- Table with a negative Item Total on a row excluded from each education
subset: one sentinel row (excluded by variant 1) and one null row (excluded
by variant 2). -/
def exC4 : List Row :=
  [ { row0 with schoolMatch := some ("Oak"), itemTotal := 100 },
    { row0 with schoolMatch := some ("no match"), itemTotal := -5 },
    { row0 with schoolMatch := none, itemTotal := -5 } ]

/-- Table whose education rows first mention schools B, A, C in that order,
all with equal revenue. -/
def exC5 : List Row :=
  [ { row0 with schoolMatch := some ("B"), itemTotal := 10 },
    { row0 with schoolMatch := some ("A"), itemTotal := 10 },
    { row0 with schoolMatch := some ("C"), itemTotal := 10 } ]

/-- Table with one row lacking an Order Date and one dated row. -/
def exC7 : List Row :=
  [ { row0 with orderDate := none, itemTotal := 50 },
    { row0 with orderDate := some (Date.mk 2024 1 15), itemTotal := 10 } ]

/-- Table with one row whose Region is London surrounded by whitespace. -/
def exC9 : List Row := [ { row0 with region := some (" london ") } ]

/-- Row with a null Order Date and a non-blank School Match. -/
def exC7row : Row :=
  { row0 with orderDate := none, itemTotal := 7, schoolMatch := some ("Oak") }

/-- Row whose School Match is a blank string. -/
def exRowBlank : Row := { row0 with schoolMatch := some (""), itemTotal := 3 }

/-- Row with a null School Match. -/
def exRowNull : Row := { row0 with schoolMatch := none, itemTotal := 100 }

/-! Ordering lemmas for the insertion sort that models the pandas sorts. -/

theorem mem_insertLe {α : Type} (le : α → α → Bool) (a x : α) :
    ∀ l : List α, x ∈ insertLe le a l ↔ x = a ∨ x ∈ l
  | [] => by simp [insertLe]
  | b :: l => by
    by_cases h : le a b = true
    · simp [insertLe, h]
    · simp only [insertLe, h, Bool.false_eq_true, if_false, List.mem_cons,
        mem_insertLe le a x l]
      tauto

theorem insertLe_perm {α : Type} (le : α → α → Bool) (a : α) :
    ∀ l : List α, List.Perm (insertLe le a l) (a :: l)
  | [] => List.Perm.refl _
  | b :: l => by
    by_cases h : le a b = true
    · simp [insertLe, h]
    · simp only [insertLe, h, Bool.false_eq_true, if_false]
      exact ((insertLe_perm le a l).cons b).trans (List.Perm.swap a b l)

theorem sortLe_perm {α : Type} (le : α → α → Bool) :
    ∀ l : List α, List.Perm (sortLe le l) l
  | [] => List.Perm.refl _
  | a :: l => (insertLe_perm le a (sortLe le l)).trans ((sortLe_perm le l).cons a)

theorem insertLe_pairwise {α : Type} (le : α → α → Bool)
    (htot : ∀ a b, le a b = true ∨ le b a = true)
    (htr : ∀ a b c, le a b = true → le b c = true → le a c = true)
    (a : α) :
    ∀ l : List α, l.Pairwise (fun x y => le x y = true) →
      (insertLe le a l).Pairwise (fun x y => le x y = true)
  | [], _ => by simp [insertLe]
  | b :: l, hl => by
    rcases List.pairwise_cons.mp hl with ⟨hb, hl2⟩
    by_cases h : le a b = true
    · simp only [insertLe, h, if_true]
      refine List.pairwise_cons.mpr ⟨?_, hl⟩
      intro x hx
      rcases List.mem_cons.mp hx with rfl | hx2
      · exact h
      · exact htr a b x h (hb x hx2)
    · simp only [insertLe, h, Bool.false_eq_true, if_false]
      refine List.pairwise_cons.mpr ⟨?_, insertLe_pairwise le htot htr a l hl2⟩
      intro x hx
      rcases (mem_insertLe le a x l).mp hx with rfl | hx2
      · exact (htot x b).resolve_left h
      · exact hb x hx2

theorem sortLe_pairwise {α : Type} (le : α → α → Bool)
    (htot : ∀ a b, le a b = true ∨ le b a = true)
    (htr : ∀ a b c, le a b = true → le b c = true → le a c = true) :
    ∀ l : List α, (sortLe le l).Pairwise (fun x y => le x y = true)
  | [] => List.Pairwise.nil
  | a :: l => insertLe_pairwise le htot htr a (sortLe le l) (sortLe_pairwise le htot htr l)

/-- Ascending value order with a tie rule on keys: the value grows, or the
values are equal and the key relation holds. -/
def lexVal {K : Type} (kp : K → K → Prop) (a b : K × ℤ) : Prop :=
  a.2 < b.2 ∨ (a.2 = b.2 ∧ kp a.1 b.1)

theorem lexVal_le {K : Type} (kp : K → K → Prop) {a b : K × ℤ}
    (h : lexVal kp a b) : a.2 ≤ b.2 := by
  rcases h with h | ⟨h, _⟩
  · exact le_of_lt h
  · exact le_of_eq h

theorem insertLe_lexVal {K : Type} (kp : K → K → Prop) (a : K × ℤ) :
    ∀ l : List (K × ℤ), l.Pairwise (lexVal kp) → (∀ b ∈ l, kp a.1 b.1) →
      (insertLe valLe a l).Pairwise (lexVal kp)
  | [], _, _ => by simp [insertLe, List.pairwise_cons]
  | b :: l, hl, hk => by
    rcases List.pairwise_cons.mp hl with ⟨hb, hl2⟩
    by_cases h : valLe a b = true
    · have hab : a.2 ≤ b.2 := by simpa [valLe] using h
      simp only [insertLe, h, if_true]
      refine List.pairwise_cons.mpr ⟨?_, hl⟩
      intro x hx
      rcases List.mem_cons.mp hx with rfl | hx2
      · rcases lt_or_eq_of_le hab with hlt | heq
        · exact Or.inl hlt
        · exact Or.inr ⟨heq, hk x (List.mem_cons_self x l)⟩
      · have hbx : b.2 ≤ x.2 := lexVal_le kp (hb x hx2)
        rcases lt_or_eq_of_le (le_trans hab hbx) with hlt | heq
        · exact Or.inl hlt
        · exact Or.inr ⟨heq, hk x (List.mem_cons_of_mem b hx2)⟩
    · have hba : b.2 < a.2 := by
        have : ¬ a.2 ≤ b.2 := by simpa [valLe] using h
        exact lt_of_not_le this
      simp only [insertLe, h, Bool.false_eq_true, if_false]
      refine List.pairwise_cons.mpr
        ⟨?_, insertLe_lexVal kp a l hl2 (fun x hx => hk x (List.mem_cons_of_mem b hx))⟩
      intro x hx
      rcases (mem_insertLe valLe a x l).mp hx with rfl | hx2
      · exact Or.inl hba
      · exact hb x hx2

theorem sortLe_lexVal {K : Type} (kp : K → K → Prop) :
    ∀ l : List (K × ℤ), l.Pairwise (fun a b => kp a.1 b.1) →
      (sortLe valLe l).Pairwise (lexVal kp)
  | [], _ => List.Pairwise.nil
  | a :: l, hl => by
    rcases List.pairwise_cons.mp hl with ⟨ha, hl2⟩
    refine insertLe_lexVal kp a (sortLe valLe l) (sortLe_lexVal kp l hl2) ?_
    intro b hb
    exact ha b ((sortLe_perm valLe l).mem_iff.mp hb)

/-! Total order facts for the code-point string comparison. -/

theorem listLe_total : ∀ x y : List Char, listLe x y = true ∨ listLe y x = true
  | [], _ => Or.inl rfl
  | _ :: _, [] => Or.inr rfl
  | a :: as, b :: bs => by
    by_cases h : a = b
    · subst h
      simpa [listLe] using listLe_total as bs
    · rcases lt_trichotomy a b with hl | he | hg
      · exact Or.inl (by simp [listLe, h, hl])
      · exact absurd he h
      · refine Or.inr (by simp [listLe, Ne.symm h, hg])

theorem listLe_trans :
    ∀ x y z : List Char, listLe x y = true → listLe y z = true → listLe x z = true
  | [], _, _, _, _ => rfl
  | _ :: _, [], _, hxy, _ => by simp [listLe] at hxy
  | _ :: _, _ :: _, [], _, hyz => by simp [listLe] at hyz
  | a :: as, b :: bs, c :: cs, hxy, hyz => by
    by_cases hab : a = b
    · subst hab
      by_cases hac : a = c
      · subst hac
        simp only [listLe, if_pos rfl] at hxy hyz ⊢
        exact listLe_trans as bs cs hxy hyz
      · simpa [listLe, hac] using (by simpa [listLe, hac] using hyz : a < c)
    · have hab2 : a < b := by simpa [listLe, hab] using hxy
      by_cases hbc : b = c
      · subst hbc
        simp [listLe, hab, hab2]
      · have hbc2 : b < c := by simpa [listLe, hbc] using hyz
        have hac2 : a < c := lt_trans hab2 hbc2
        simp [listLe, ne_of_lt hac2, hac2]

theorem strLe_total (a b : String) : strLe a b = true ∨ strLe b a = true :=
  listLe_total a.data b.data

theorem strLe_trans (a b c : String) (h1 : strLe a b = true) (h2 : strLe b c = true) :
    strLe a c = true :=
  listLe_trans a.data b.data c.data h1 h2

/-! Structure of a groupby-sum aggregate and of its descending sort. -/

theorem groupSum_keys_nodup {K : Type} [DecidableEq K] (kle : K → K → Bool)
    (pairs : List (K × ℤ)) : (sortLe kle (pairs.map Prod.fst).dedup).Nodup :=
  (sortLe_perm kle (pairs.map Prod.fst).dedup).nodup_iff.mpr (List.nodup_dedup _)

theorem groupSum_pairwise (pairs : List (String × ℤ)) :
    (groupSum strLe pairs).Pairwise
      (fun a b => (strLe a.1 b.1 = true ∧ a.1 ≠ b.1)) := by
  have hs : (sortLe strLe (pairs.map Prod.fst).dedup).Pairwise
      (fun x y => strLe x y = true) :=
    sortLe_pairwise strLe strLe_total strLe_trans _
  have hn : (sortLe strLe (pairs.map Prod.fst).dedup).Pairwise (fun x y => x ≠ y) :=
    groupSum_keys_nodup strLe pairs
  have hp := hs.and hn
  unfold groupSum
  exact List.pairwise_map.mpr (by simpa using hp)

theorem sortValsDesc_groupSum_pairwise (pairs : List (String × ℤ)) :
    (sortValsDesc (groupSum strLe pairs)).Pairwise
      (fun a b => b.2 < a.2 ∨ (b.2 = a.2 ∧ strLe b.1 a.1 = true ∧ b.1 ≠ a.1)) := by
  have h := sortLe_lexVal (fun k1 k2 => strLe k1 k2 = true ∧ k1 ≠ k2)
    (groupSum strLe pairs) (groupSum_pairwise pairs)
  unfold sortValsDesc
  refine List.pairwise_reverse.mpr ?_
  refine h.imp ?_
  intro a b hab
  rcases hab with h1 | ⟨h1, h2, h3⟩
  · exact Or.inl h1
  · exact Or.inr ⟨h1, h2, h3⟩

theorem mem_sortValsDesc {K : Type} {p : K × ℤ} {l : List (K × ℤ)} :
    p ∈ sortValsDesc l ↔ p ∈ l := by
  unfold sortValsDesc
  rw [List.mem_reverse]
  exact (sortLe_perm valLe l).mem_iff

theorem mem_groupSum_val {K : Type} [DecidableEq K] (kle : K → K → Bool)
    {pairs : List (K × ℤ)} {p : K × ℤ} (h : p ∈ groupSum kle pairs) :
    p.2 = sumForKey p.1 pairs := by
  unfold groupSum at h
  rcases List.mem_map.mp h with ⟨k, _, rfl⟩
  rfl

theorem key_mem_groupSum {K : Type} [DecidableEq K] (kle : K → K → Bool)
    {pairs : List (K × ℤ)} {pr : K × ℤ} (h : pr ∈ pairs) :
    pr.1 ∈ (groupSum kle pairs).map Prod.fst := by
  have h1 : pr.1 ∈ (pairs.map Prod.fst).dedup :=
    List.mem_dedup.mpr (List.mem_map_of_mem Prod.fst h)
  have h2 : pr.1 ∈ sortLe kle (pairs.map Prod.fst).dedup :=
    (sortLe_perm kle _).mem_iff.mpr h1
  unfold groupSum
  rw [List.map_map]
  simpa using h2

theorem map_fst_sortValsDesc {K : Type} {k : K} {l : List (K × ℤ)}
    (h : k ∈ l.map Prod.fst) : k ∈ (sortValsDesc l).map Prod.fst := by
  rcases List.mem_map.mp h with ⟨p, hp, rfl⟩
  exact List.mem_map_of_mem Prod.fst (mem_sortValsDesc.mpr hp)

theorem sumForKey_map (key : Row → String) (k : String) :
    ∀ df : List Row,
      sumForKey k (df.map (fun r => (key r, r.itemTotal))) =
        ((df.filter (fun r => decide (key r = k))).map Row.itemTotal).sum
  | [] => rfl
  | r :: df => by
    have ih := sumForKey_map key k df
    simp only [sumForKey] at ih
    by_cases h : key r = k <;>
      simp [sumForKey, List.filter_cons, h, ih]

/-! Sum and filter lemmas. -/

theorem sum_filter_le (p : Row → Bool) :
    ∀ l : List Row, (∀ r ∈ l, 0 ≤ r.itemTotal) →
      ((l.filter p).map Row.itemTotal).sum ≤ (l.map Row.itemTotal).sum
  | [], _ => le_refl 0
  | r :: l, h => by
    have hr : 0 ≤ r.itemTotal := h r (List.mem_cons_self r l)
    have ih := sum_filter_le p l (fun x hx => h x (List.mem_cons_of_mem r hx))
    by_cases hp : p r
    · simpa [List.filter_cons, hp] using add_le_add_left ih r.itemTotal
    · simp only [List.filter_cons, hp, Bool.false_eq_true, if_false, List.map_cons,
        List.sum_cons]
      exact le_trans ih (le_add_of_nonneg_left hr)

/-! Whitespace lemmas backing the blank School Match analysis. -/

theorem stripList_eq_nil {l : List Char} (h : stripList l = []) :
    ∀ c ∈ l, isPySpace c = true := by
  unfold stripList at h
  rw [List.reverse_eq_nil_iff] at h
  rw [List.dropWhile_eq_nil_iff] at h
  intro c hc
  rcases List.mem_append.mp
      ((List.takeWhile_append_dropWhile (p := isPySpace) (l := l)) ▸ hc) with h1 | h1
  · exact List.mem_takeWhile_imp h1
  · exact h c (List.mem_reverse.mpr h1)

theorem isPySpace_cases {c : Char} (h : isPySpace c = true) :
    c = ' ' ∨ c = '\t' ∨ c = '\n' ∨ c = '\r' := by
  simpa [isPySpace, beq_iff_eq, or_assoc] using h

theorem space_toLower {c : Char} (h : isPySpace c = true) : Char.toLower c ≠ 'n' := by
  rcases isPySpace_cases h with rfl | rfl | rfl | rfl <;> decide

theorem strip_empty_imp_not_sentinel {s : String} (h : strip s = "") :
    lower s ≠ "no match" := by
  have hdata : stripList s.data = [] := congrArg String.data h
  have hsp : ∀ c ∈ s.data, isPySpace c = true := stripList_eq_nil hdata
  intro hcon
  have hmap : s.data.map Char.toLower = ('n' :: "o match".data) :=
    congrArg String.data hcon
  cases hd : s.data with
  | nil => rw [hd] at hmap; exact absurd hmap (by simp)
  | cons c cs =>
    rw [hd] at hmap
    have hc : Char.toLower c = 'n' := (List.cons.injEq _ _ _ _ ▸ hmap).1
    exact space_toLower (hsp c (hd ▸ List.mem_cons_self c cs)) hc

theorem eduPred1_of_blank {sm : Option String}
    (h : sm = none ∨ ∃ s, sm = some s ∧ strip s = "") : eduPred1 sm = true := by
  rcases h with rfl | ⟨s, rfl, hs⟩
  · rfl
  · exact decide_eq_true (strip_empty_imp_not_sentinel hs)

/-! Filter composition lemmas for the Filter Engine. -/

theorem filter_filter2 {α : Type} (p q : α → Bool) :
    ∀ l : List α, (l.filter q).filter p = l.filter (fun a => p a && q a)
  | [] => rfl
  | a :: l => by
    by_cases hq : q a = true
    · by_cases hp : p a = true <;>
        simp [List.filter_cons, hp, hq, filter_filter2 p q l]
    · simp [List.filter_cons, hq, filter_filter2 p q l]

theorem filter_comm {α : Type} (p q : α → Bool) (l : List α) :
    (l.filter q).filter p = (l.filter p).filter q := by
  rw [filter_filter2, filter_filter2]
  exact List.filter_congr (fun a _ => by rw [Bool.and_comm])

theorem applyEq_eq_filter (get : Row → Option String) (c : Option String)
    (df : List Row) : applyEq get c df = df.filter (fun r => matchOpt c (get r)) := by
  cases c with
  | none =>
    unfold applyEq matchOpt
    exact (List.filter_eq_self.mpr (fun a _ => rfl)).symm
  | some v => rfl

theorem applyEq_comm (g1 g2 : Row → Option String) (c1 c2 : Option String)
    (l : List Row) :
    applyEq g1 c1 (applyEq g2 c2 l) = applyEq g2 c2 (applyEq g1 c1 l) := by
  rw [applyEq_eq_filter, applyEq_eq_filter, applyEq_eq_filter g2, applyEq_eq_filter g1]
  exact filter_comm _ _ l

theorem applyEq_nil (get : Row → Option String) (c : Option String) :
    applyEq get c [] = [] := by
  cases c <;> rfl

theorem length_filter_mono {α : Type} (p q : α → Bool)
    (h : ∀ a, p a = true → q a = true) :
    ∀ l : List α, (l.filter p).length ≤ (l.filter q).length
  | [] => le_refl 0
  | a :: l => by
    by_cases hp : p a = true
    · simp only [List.filter_cons, hp, h a hp, if_true, List.length_cons]
      exact Nat.succ_le_succ (length_filter_mono p q h l)
    · by_cases hq : q a = true <;>
        simp only [List.filter_cons, hp, hq, Bool.false_eq_true, if_false, if_true,
          List.length_cons] <;>
        [exact le_trans (length_filter_mono p q h l) (Nat.le_succ _);
         exact length_filter_mono p q h l]

theorem trustPred2_imp_trustPred1 (tm : Option String)
    (h : trustPred2 tm = true) : trustPred1 tm = true := by
  cases tm with
  | none => exact absurd h (by simp [trustPred2])
  | some s => exact h

/-! Claim theorems. -/

/-- Claim C1, counterexample: on a table holding a padded sentinel row and a
capitalised sentinel row, variant 1 keeps the first and variant 2 keeps
both, although the unified predicate of the claim rejects each of them; the
two variants also disagree with each other on this table. -/
theorem c1_counterexample :
    edu1 exC1 = [exRowA] ∧ edu2 exC1 = [exRowA, exRowB] ∧
    eduPredUnified exRowA.schoolMatch = false ∧
    eduPredUnified exRowB.schoolMatch = false := by decide

/-- Claim C1, amended: each variant filters by its own row-local School
Match predicate; variant 1 keeps null rows and rows whose untrimmed
lower-cased value differs from the sentinel, variant 2 keeps rows whose
value is non-null and trims non-empty, and the two predicates differ from
the unified spec predicate and from each other. -/
theorem c1_education_predicates :
    (∀ (df : List Row) (r : Row),
      r ∈ edu1 df ↔ r ∈ df ∧ eduPred1 r.schoolMatch = true) ∧
    (∀ (df : List Row) (r : Row),
      r ∈ edu2 df ↔ r ∈ df ∧ eduPred2 r.schoolMatch = true) ∧
    eduPred1 (some (" no match ")) ≠ eduPredUnified (some (" no match ")) ∧
    eduPred2 (some ("No Match")) ≠ eduPredUnified (some ("No Match")) ∧
    eduPred1 (some ("No Match")) ≠ eduPred2 (some ("No Match")) := by
  refine ⟨?_, ?_, by decide, by decide, by decide⟩ <;>
    (intro df r; simp [edu1, edu2, List.mem_filter])

/-- Claim C2: on a table whose single row has a null School Match, both
education subsets contain no school, so the schools-reached count is zero;
variant 1 guards the division and reports the rate 0, while variant 2
evaluates the unguarded 0 / 0, which numpy turns into a NaN (modelled as
none) instead of the 0 required by the spec. -/
theorem c2_divide_by_zero_guard :
    schools_reached1 exC2 = 0 ∧ schools_reached2 exC2 = 0 ∧
    repeat_order_rate1 exC2 = 0 ∧ repeat_order_rate2 exC2 = none := by decide

/-- Claim C3, counterexample: on a table whose Trust Match column is the
example list but whose School Match cells are all null, the count of
variant 2 is 0 and not the 3 required by the claim, because it only scans
its education subset, which is empty here. -/
theorem c3_counterexample :
    trust_purchases_count exC3 = 3 ∧ total_trust_matched_sales exC3 = 0 := by decide

/-- Claim C3, amended: variant 1 counts the rows of the full table whose
stringified, trimmed, lower-cased Trust Match equals the marker and yields
exactly 3 on the example column; variant 2 applies the same test to its
education subset only, so its count never exceeds the variant 1 count. -/
theorem c3_trust_count :
    (∀ df : List Row, total_trust_matched_sales df ≤ trust_purchases_count df) ∧
    trust_purchases_count exC3 = 3 := by
  constructor
  · intro df
    unfold total_trust_matched_sales trust_purchases_count edu2
    rw [filter_filter2]
    refine length_filter_mono _ _ ?_ df
    intro r h
    have h2 : trustPred2 r.trustMatch = true := by
      have := Bool.and_eq_true_iff.mp h
      exact this.1
    exact trustPred2_imp_trustPred1 r.trustMatch h2
  · decide

/-- Claim C4, counterexample: with a negative Item Total on a sentinel row
and on a null row, both education revenues exceed the total revenue. -/
theorem c4_counterexample :
    ¬ (edu_revenue1 exC4 ≤ total_revenue exC4) ∧
    ¬ (edu_revenue2 exC4 ≤ total_revenue exC4) := by decide

/-- Claim C4, amended: when every Item Total of the table is non-negative,
the education revenue of either variant is at most the total revenue. -/
theorem c4_edu_revenue_le (df : List Row) (h : ∀ r ∈ df, 0 ≤ r.itemTotal) :
    edu_revenue1 df ≤ total_revenue df ∧ edu_revenue2 df ≤ total_revenue df :=
  ⟨sum_filter_le _ df h, sum_filter_le _ df h⟩

/-- Claim C4, witness: the amended bound evaluated on the spec example
table, whose Item Totals are non-negative. -/
theorem c4_witness :
    edu_revenue1 exSpec ≤ total_revenue exSpec ∧
    edu_revenue2 exSpec ≤ total_revenue exSpec :=
  c4_edu_revenue_le exSpec (by decide)

/-- Claim C5, counterexample: on a table whose education rows first mention
schools B, A, C, all with revenue 10, the ranking comes out as C, B, A,
while the first-seen order of those School Match values is B, A, C; the
tied groups are therefore not in first-seen order. -/
theorem c5_counterexample :
    top_schools1 exC5 = [("C", (10:ℤ)), ("B", 10), ("A", 10)] ∧
    top_schools2 exC5 = [("C", (10:ℤ)), ("B", 10), ("A", 10)] ∧
    firstSeen ((keyedBySchool (edu1 exC5)).map Prod.fst) = ["B", "A", "C"] ∧
    (top_schools1 exC5).map Prod.fst ≠ ["B", "A", "C"] := by decide

/-- Claim C5, amended: in both variants the top-10 table is sorted in
non-increasing revenue order, and two groups with equal revenue appear in
descending School Match order under the code-point string comparison; the
groupby sorts its keys ascending and the descending value sort reverses a
stable ascending sort, so the first-seen order of the cleaned table is not
preserved on ties. -/
theorem c5_top_schools_order (df : List Row) :
    (top_schools1 df).Pairwise
      (fun a b => b.2 < a.2 ∨ (b.2 = a.2 ∧ strLe b.1 a.1 = true ∧ b.1 ≠ a.1)) ∧
    (top_schools2 df).Pairwise
      (fun a b => b.2 < a.2 ∨ (b.2 = a.2 ∧ strLe b.1 a.1 = true ∧ b.1 ≠ a.1)) :=
  ⟨(sortValsDesc_groupSum_pairwise _).sublist (List.take_sublist 10 _),
   (sortValsDesc_groupSum_pairwise _).sublist (List.take_sublist 10 _)⟩

/-- Claim C6, counterexample: on the spec example table the breakdown of
variant 2 keeps london and London as separate buckets of 100 and 50 instead
of one London bucket of 150, and the breakdown of variant 1 is the single
bucket London 150 with no Leeds bucket at all. -/
theorem c6_counterexample :
    region_sales_all exSpec = [("london", (100:ℤ)), ("London", 50), ("Leeds", 25)] ∧
    region_sales1 exSpec = [("London", (150:ℤ))] ∧
    ("Leeds", (25:ℤ)) ∉ region_sales1 exSpec := by decide

/-- Claim C6, amended: the variant 2 breakdown covers all sales, is sorted
in non-increasing revenue order, assigns to each listed region key the sum
of the Item Totals of the rows whose whitespace-trimmed stringified Region
equals that key with no case folding, and lists the trimmed Region of every
row, blanks and nan renderings included. -/
theorem c6_region_breakdown (df : List Row) :
    (region_sales_all df).Pairwise (fun a b => b.2 ≤ a.2) ∧
    (∀ p ∈ region_sales_all df,
      p.2 = ((df.filter (fun r => decide (strip (pyStr r.region) = p.1))).map
        Row.itemTotal).sum) ∧
    (∀ r ∈ df, strip (pyStr r.region) ∈ (region_sales_all df).map Prod.fst) := by
  have hpairs : (addRegionCleanStep df).map (fun r => (pyStr r.regionClean, r.itemTotal)) =
      df.map (fun r => (strip (pyStr r.region), r.itemTotal)) := by
    unfold addRegionCleanStep
    rw [List.map_map]
    rfl
  refine ⟨?_, ?_, ?_⟩
  · refine (sortValsDesc_groupSum_pairwise _).imp ?_
    intro a b h
    rcases h with h | ⟨h, _⟩
    · exact le_of_lt h
    · exact le_of_eq h
  · intro p hp
    have hg : p ∈ groupSum strLe
        ((addRegionCleanStep df).map (fun r => (pyStr r.regionClean, r.itemTotal))) :=
      mem_sortValsDesc.mp hp
    have hv := mem_groupSum_val strLe hg
    rw [hpairs] at hv
    rw [hv]
    exact sumForKey_map (fun r => strip (pyStr r.region)) p.1 df
  · intro r hr
    have hmem : (strip (pyStr r.region), r.itemTotal) ∈
        (addRegionCleanStep df).map (fun r => (pyStr r.regionClean, r.itemTotal)) := by
      rw [hpairs]
      exact List.mem_map_of_mem _ hr
    exact map_fst_sortValsDesc (key_mem_groupSum strLe hmem)

/-- Claim C6, witness: the amended characterisation applied to the spec
example table, at the london bucket and at the first row. -/
theorem c6_witness :
    ((100:ℤ) = ((exSpec.filter (fun r => decide (strip (pyStr r.region) = "london"))).map
      Row.itemTotal).sum) ∧
    strip (pyStr exSpecRow1.region) ∈ (region_sales_all exSpec).map Prod.fst :=
  ⟨(c6_region_breakdown exSpec).2.1 ("london", 100) (by decide),
   (c6_region_breakdown exSpec).2.2 exSpecRow1 (by decide)⟩

/-- Claim C7: a row with a null Order Date contributes to no bucket of the
monthly series of all sales nor of either education series, while its Item
Total still enters the total and education revenue KPIs; on the concrete
table with a dated and an undated row the series total is strictly below
the revenue KPI. -/
theorem c7_monthly_null_dates (df : List Row) (r : Row) (h : r.orderDate = none) :
    monthly_series (r :: df) = monthly_series df ∧
    total_revenue (r :: df) = r.itemTotal + total_revenue df ∧
    (eduPred1 r.schoolMatch = true →
      monthly_series (edu1 (r :: df)) = monthly_series (edu1 df) ∧
      edu_revenue1 (r :: df) = r.itemTotal + edu_revenue1 df) ∧
    (eduPred2 r.schoolMatch = true →
      monthly_series (edu2 (r :: df)) = monthly_series (edu2 df) ∧
      edu_revenue2 (r :: df) = r.itemTotal + edu_revenue2 df) ∧
    seriesTotal (monthly_series exC7) < total_revenue exC7 := by
  refine ⟨?_, ?_, ?_, ?_, by decide⟩
  · simp [monthly_series, List.filterMap_cons, h]
  · simp [total_revenue]
  · intro hp
    constructor
    · simp [edu1, List.filter_cons, hp, monthly_series, List.filterMap_cons, h]
    · simp [edu_revenue1, edu1, List.filter_cons, hp, total_revenue]
  · intro hp
    constructor
    · simp [edu2, List.filter_cons, hp, monthly_series, List.filterMap_cons, h]
    · simp [edu_revenue2, edu2, List.filter_cons, hp, total_revenue]

/-- Claim C7, witness: the null-date exclusion applied to a concrete row on
top of a concrete table. -/
theorem c7_witness :
    monthly_series (exC7row :: exC7) = monthly_series exC7 ∧
    total_revenue (exC7row :: exC7) = exC7row.itemTotal + total_revenue exC7 ∧
    monthly_series (edu1 (exC7row :: exC7)) = monthly_series (edu1 exC7) ∧
    edu_revenue2 (exC7row :: exC7) = exC7row.itemTotal + edu_revenue2 exC7 := by
  have h := c7_monthly_null_dates exC7 exC7row rfl
  exact ⟨h.1, h.2.1, (h.2.2.1 (by decide)).1, (h.2.2.2.1 (by decide)).2⟩

/-- Claim C8: the Filter Engine of variant 2 equals one filter by the
conjunction of the four equality constraints, two constraint applications
commute so the outcome is order-independent, the two-constraint engine of
variant 1 is likewise a conjunction filter, and a Region value absent from
the base table yields an empty filtered table whose derived revenue total
and row count are 0. -/
theorem c8_filter_engine (df : List Row) (cr cs ct cm : Option String) :
    filtered2 cr cs ct cm df = df.filter (fun r => conjPred cr cs ct cm r) ∧
    (∀ (g1 g2 : Row → Option String) (c1 c2 : Option String) (l : List Row),
      applyEq g1 c1 (applyEq g2 c2 l) = applyEq g2 c2 (applyEq g1 c1 l)) ∧
    filtered1 cr cs df =
      df.filter (fun r => matchOpt cs r.schoolType && matchOpt cr r.region) ∧
    (∀ v : String, (∀ r ∈ df, r.region ≠ some v) →
      filtered2 (some v) cs ct cm df = [] ∧
      filtered_sales_total (filtered2 (some v) cs ct cm df) = 0 ∧
      filtered_sales_count (filtered2 (some v) cs ct cm df) = 0) := by
  refine ⟨?_, applyEq_comm, ?_, ?_⟩
  · unfold filtered2 conjPred
    rw [applyEq_eq_filter, applyEq_eq_filter, applyEq_eq_filter, applyEq_eq_filter,
      filter_filter2, filter_filter2, filter_filter2]
  · unfold filtered1
    rw [applyEq_eq_filter, applyEq_eq_filter, filter_filter2]
  · intro v hv
    have h0 : applyEq Row.region (some v) df = [] := by
      unfold applyEq
      refine List.filter_eq_nil_iff.mpr ?_
      intro r hr
      simpa using hv r hr
    have h1 : filtered2 (some v) cs ct cm df = [] := by
      unfold filtered2
      rw [h0, applyEq_nil, applyEq_nil, applyEq_nil]
    exact ⟨h1, by rw [h1]; rfl, by rw [h1]; rfl⟩

/-- Claim C8, witness: filtering the spec example table by a Region absent
from it yields the empty table and zero totals, and the conjunction form
evaluated on that table. -/
theorem c8_witness :
    filtered2 (some ("Paris")) none none none exSpec = [] ∧
    filtered_sales_total (filtered2 (some ("Paris")) none none none exSpec) = 0 ∧
    filtered_sales_count (filtered2 (some ("Paris")) none none none exSpec) = 0 :=
  (c8_filter_engine exSpec (some ("Paris")) none none none).2.2.2 "Paris" (by decide)

/-- Claim C9, counterexample: on a one-row table the Region rewrite of
variant 1 and the column addition of variant 2 both change the table, so
the cleaned table and the subset are not left unchanged by the pipeline. -/
theorem c9_counterexample :
    regionCleanStep exC9 ≠ exC9 ∧ addRegionCleanStep exC9 ≠ exC9 := by decide

/-- Claim C9, amended: the two in-place cleaning steps do mutate their
table, but the mutation is confined to the Region data: row count and
total revenue are preserved, and on every row all fields other than Region
and Region_clean are unchanged, Region becoming the trimmed title-cased
rendering of its stringified value in variant 1. -/
theorem c9_mutation_frame (df : List Row) :
    (regionCleanStep df).length = df.length ∧
    (addRegionCleanStep df).length = df.length ∧
    total_revenue (regionCleanStep df) = total_revenue df ∧
    total_revenue (addRegionCleanStep df) = total_revenue df ∧
    (∀ r ∈ df, (cleanRegionRow r).orderId = r.orderId ∧
      (cleanRegionRow r).orderDate = r.orderDate ∧
      (cleanRegionRow r).itemTotal = r.itemTotal ∧
      (cleanRegionRow r).quantity = r.quantity ∧
      (cleanRegionRow r).schoolType = r.schoolType ∧
      (cleanRegionRow r).typ = r.typ ∧
      (cleanRegionRow r).itemType = r.itemType ∧
      (cleanRegionRow r).schoolMatch = r.schoolMatch ∧
      (cleanRegionRow r).trustMatch = r.trustMatch ∧
      (cleanRegionRow r).region = some (title (strip (pyStr r.region)))) := by
  refine ⟨List.length_map df _, List.length_map df _, ?_, ?_, ?_⟩
  · unfold total_revenue regionCleanStep
    rw [List.map_map]
    rfl
  · unfold total_revenue addRegionCleanStep
    rw [List.map_map]
    rfl
  · intro r _
    exact ⟨rfl, rfl, rfl, rfl, rfl, rfl, rfl, rfl, rfl, rfl⟩

/-- Claim C9, witness: the frame conditions evaluated on the spec example
table at its first row. -/
theorem c9_witness :
    (regionCleanStep exSpec).length = exSpec.length ∧
    total_revenue (regionCleanStep exSpec) = total_revenue exSpec ∧
    (cleanRegionRow exSpecRow1).itemTotal = exSpecRow1.itemTotal ∧
    (cleanRegionRow exSpecRow1).region = some (title (strip (pyStr exSpecRow1.region))) := by
  have h := c9_mutation_frame exSpec
  have h5 := h.2.2.2.2 exSpecRow1 (by decide)
  exact ⟨h.1, h.2.2.1, h5.2.2.1, h5.2.2.2.2.2.2.2.2.2⟩

/-- Claim C10: in the sentinel-exclusion variant every row whose School
Match is null or trims to the empty string is kept in the education subset,
such a row always contributes its Item Total to the education revenue, and
a non-null School Match value of a subset row, a blank string included, is
one of the distinct values behind the schools-reached count. -/
theorem c10_blank_rows_included :
    (∀ (df : List Row) (r : Row), r ∈ df →
      (r.schoolMatch = none ∨ ∃ s, r.schoolMatch = some s ∧ strip s = "") →
      r ∈ edu1 df) ∧
    (∀ (df : List Row) (r : Row),
      (r.schoolMatch = none ∨ ∃ s, r.schoolMatch = some s ∧ strip s = "") →
      edu_revenue1 (r :: df) = r.itemTotal + edu_revenue1 df) ∧
    (∀ (df : List Row) (r : Row) (s : String),
      r.schoolMatch = some s → r ∈ edu1 df →
      s ∈ (((edu1 df).map Row.schoolMatch).filterMap id).dedup ∧
        1 ≤ schools_reached1 df) := by
  refine ⟨?_, ?_, ?_⟩
  · intro df r hmem hblank
    exact List.mem_filter.mpr ⟨hmem, eduPred1_of_blank hblank⟩
  · intro df r hblank
    simp [edu_revenue1, edu1, total_revenue, List.filter_cons, eduPred1_of_blank hblank]
  · intro df r s hs hmem
    have h1 : some s ∈ (edu1 df).map Row.schoolMatch := by
      rw [← hs]
      exact List.mem_map_of_mem Row.schoolMatch hmem
    have h2 : s ∈ ((edu1 df).map Row.schoolMatch).filterMap id :=
      List.mem_filterMap.mpr ⟨some s, h1, rfl⟩
    have h3 := List.mem_dedup.mpr h2
    refine ⟨h3, ?_⟩
    have h4 : 0 < ((((edu1 df).map Row.schoolMatch).filterMap id).dedup).length :=
      List.length_pos_of_mem h3
    exact h4

/-- Claim C10, witness: the inclusions evaluated on concrete tables with a
null School Match row and a blank School Match row. -/
theorem c10_witness :
    exRowNull ∈ edu1 [exRowNull] ∧
    edu_revenue1 (exRowBlank :: exSpec) = exRowBlank.itemTotal + edu_revenue1 exSpec ∧
    ("" ∈ (((edu1 exSpec).map Row.schoolMatch).filterMap id).dedup ∧
      1 ≤ schools_reached1 exSpec) := by
  have h := c10_blank_rows_included
  refine ⟨h.1 [exRowNull] exRowNull (by decide) (Or.inl rfl), ?_, ?_⟩
  · exact h.2.1 exSpec exRowBlank (Or.inr ⟨"", rfl, rfl⟩)
  · exact h.2.2 exSpec exSpecRow2 "" rfl (by decide)

end Dashboard
